import Mathlib

/-!
Verification of the Section Snap Controller of `src/animations/sectionSnap.ts`.

The source file holds two variants of the controller:

* Variant A (the wheel/touch variant): module state `currentIndex`,
  `animating`, `processingWheel`, `processingTouch`, a `gotoSection`
  routine driven by a `wheelListener` and a `touchListener`, and a GSAP
  timeline whose `onComplete` callback releases the flags.
* Variant B (the Lenis scroll variant): module state `positions`,
  `snapping`, `lastScrollY`, `scrollDirection`, an `onScroll` handler that
  debounces a scroll-end callback, and a `resizeHandler` that recomputes
  the offset table.

Both are embedded below as pure step functions on explicit state records.
Machine integers of the source are JS numbers used only at integer values
here (pixel offsets, indices, millisecond timestamps), so they are
modelled as `Int`; the one real-valued computation, variant B's
`progress = (scroll - top) / viewport`, is embedded by exact
cross-multiplication of its comparisons, which agrees with the source for
any positive viewport height.
-/

namespace SectionSnap

/-- Array lookup `xs[i]` of the source for a possibly negative index:
out-of-range access yields `undefined`, modelled as `none`. -/
def getAt? (l : List Int) (i : Int) : Option Int :=
  if 0 ≤ i then l.get? i.toNat else none

/-- One step of the nearest-section scan of the source (`minDistance`
starts at Infinity, strict `<` comparison, so the lowest index wins ties).
The accumulator is (next position, best index so far, best distance so
far, `none` standing for Infinity). -/
def nearestAux (scrollY : Int) (acc : Nat × Nat × Option Nat) (off : Int) :
    Nat × Nat × Option Nat :=
  match acc with
  | (i, best, bestDist) =>
    let d := (scrollY - off).natAbs
    match bestDist with
    | none => (i + 1, i, some d)
    | some bd => if d < bd then (i + 1, i, some d) else (i + 1, best, some bd)

/-- Index of the section whose offset is nearest to the live scroll
position (`actualCurrentIndex` loop of `wheelListener` and
`touchListener`, and the `closestIndex` loop of variant B's scroll-end
callback); 0 when the table is empty, lowest index on ties. -/
def nearestIndex (offsets : List Int) (scrollY : Int) : Nat :=
  (offsets.foldl (nearestAux scrollY) (0, 0, none)).2.1

/-- Module-level mutable state of variant A, together with the closure
variables of `init` (`lastWheelTime`, `lastProcessedIndex`,
`lastTouchTime`, `touchStartY`).  `timeline` is the identifier of the
live GSAP scroll timeline, if any, and `nextTl` supplies fresh
identifiers; `gotoSection` kills the previous timeline before creating a
new one, so at most one identifier is ever live. -/
structure SnapState where
  currentIndex : Int
  animating : Bool
  processingWheel : Bool
  processingTouch : Bool
  lastWheelTime : Int
  lastProcessedIndex : Int
  lastTouchTime : Int
  touchStartY : Int
  timeline : Option Nat
  nextTl : Nat
deriving Repr, DecidableEq

/-- State right after `init` found a nonempty section list: index 0, no
animation, no locks, `lastWheelTime = 0`, `lastProcessedIndex = -1`. -/
def initState : SnapState where
  currentIndex := 0
  animating := false
  processingWheel := false
  processingTouch := false
  lastWheelTime := 0
  lastProcessedIndex := -1
  lastTouchTime := 0
  touchStartY := 0
  timeline := none
  nextTl := 0

/-- Range clamp of `gotoSection` (source lines 68-72): negative indices
to 0, indices past the end to `n - 1`. -/
def clampRange (n index : Int) : Int :=
  if index < 0 then 0 else if n ≤ index then n - 1 else index

/-- Adjacency clamp of `gotoSection` (source lines 75-83): a request more
than one step from `currentIndex` is pulled back to `currentIndex ± 1`. -/
def clampAdjacent (ci index : Int) : Int :=
  if 1 < index - ci then ci + 1
  else if index - ci < -1 then ci - 1
  else index

/-- Target index `gotoSection` actually commits to for a request:
the range clamp followed by the adjacency clamp. -/
def resolveIndex (n ci index : Int) : Int :=
  clampAdjacent ci (clampRange n index)

/-- The `gotoSection` routine (source lines 62-146) as a pure step: given
the live scroll position and offset table, it returns the new state and
the target offset handed to the scroll timeline (`none` when no animation
is started).  Committing kills any previous timeline and installs a fresh
one whose identifier is recorded in `timeline`. -/
def gotoSection (st : SnapState) (scrollY : Int) (offsets : List Int) (index : Int) :
    SnapState × Option Int :=
  if st.animating then (st, none) else
  let i := resolveIndex (offsets.length : Int) st.currentIndex index
  let stop : Bool :=
    if i = st.currentIndex then
      match getAt? offsets i with
      | some p => decide ((scrollY - p).natAbs ≤ 5)
      | none => true
    else false
  if stop then (st, none)
  else
    match getAt? offsets i with
    | some targetPos =>
      ({ st with animating := true, currentIndex := i,
                 timeline := some st.nextTl, nextTl := st.nextTl + 1 }, some targetPos)
    | none => (st, none)

/-- Body of the timeline's `onComplete` callback (source lines 121-128):
unconditionally clears `animating`, drops the timeline, and releases both
processing locks.  Note that it inspects no captured data. -/
def onCompleteBody (st : SnapState) : SnapState :=
  { st with animating := false, timeline := none,
            processingWheel := false, processingTouch := false }

/-- Delivery of a timeline-completion signal.  GSAP never fires the
`onComplete` of a killed timeline, and `gotoSection` kills the previous
timeline before creating a new one, so the body runs only when the
signalled identifier is still the live one. -/
def completeStep (st : SnapState) (tl : Nat) : SnapState :=
  if st.timeline = some tl then onCompleteBody st else st

/-- Environment observed by an input event: the current time
(`Date.now()`), the live scroll position, the section offset table, and
whether a blocking external animation (the intro sequence / an active
viewport trigger) is in progress.  Variant A's listeners read the first
three only; `setSectionSnapAnimationActive` is a no-op and no handler of
variant A consults the external-animation flag. -/
structure WheelEnv where
  now : Int
  scrollY : Int
  offsets : List Int
  externalAnimActive : Bool
deriving Repr, DecidableEq

/-- Wheel throttle window of the source (`wheelThrottle = 1200`). -/
def wheelThrottle : Int := 1200

/-- The `wheelListener` (source lines 154-227) as a pure step: returns the
new state and the target offset of the started scroll animation, if any. -/
def wheelStep (st : SnapState) (env : WheelEnv) (deltaY : Int) :
    SnapState × Option Int :=
  if st.animating ∨ st.processingWheel then (st, none)
  else if env.now - st.lastWheelTime < wheelThrottle then (st, none)
  else
    let a := nearestIndex env.offsets env.scrollY
    if (a : Int) = st.lastProcessedIndex ∧ env.now - st.lastWheelTime < wheelThrottle * 2 then
      (st, none)
    else
      let st1 := { st with processingWheel := true, lastWheelTime := env.now,
                           lastProcessedIndex := (a : Int) }
      let isDown := 0 < deltaY
      if isDown ∧ a + 1 ≥ env.offsets.length then ({ st1 with processingWheel := false }, none)
      else if ¬isDown ∧ a = 0 then ({ st1 with processingWheel := false }, none)
      else
        let target : Int := if isDown then (a : Int) + 1 else (a : Int) - 1
        if (target - (a : Int)).natAbs ≠ 1 then ({ st1 with processingWheel := false }, none)
        else gotoSection st1 env.scrollY env.offsets target

/-- Touch throttle window of the source (`touchThrottle = 800`). -/
def touchThrottle : Int := 800

/-- The `touchstart` branch of `touchListener` (source lines 240-243),
guarded by the animating/processing check at the top of the listener. -/
def touchStartStep (st : SnapState) (touchY : Int) : SnapState :=
  if st.animating ∨ st.processingTouch then st else { st with touchStartY := touchY }

/-- The `touchmove` branch of `touchListener` (source lines 245-296) as a
pure step.  The source computes `deltaY = touchStartY - touchY` and takes
`deltaY < 0` as scrolling down; `touchStartY` is advanced to the current
touch position only on the path that reaches `gotoSection`. -/
def touchMoveStep (st : SnapState) (env : WheelEnv) (touchY : Int) :
    SnapState × Option Int :=
  if st.animating ∨ st.processingTouch then (st, none)
  else if env.now - st.lastTouchTime < touchThrottle then (st, none)
  else
    let deltaY := st.touchStartY - touchY
    if deltaY.natAbs < 30 then (st, none)
    else
      let isDown := deltaY < 0
      let a := nearestIndex env.offsets env.scrollY
      if isDown ∧ a + 1 ≥ env.offsets.length then (st, none)
      else if ¬isDown ∧ a = 0 then (st, none)
      else
        let st1 := { st with processingTouch := true, lastTouchTime := env.now }
        let target : Int := if isDown then (a : Int) + 1 else (a : Int) - 1
        if (target - (a : Int)).natAbs ≠ 1 then ({ st1 with processingTouch := false }, none)
        else
          let r := gotoSection st1 env.scrollY env.offsets target
          ({ r.1 with touchStartY := touchY }, r.2)

/-- Events the variant A controller reacts to: wheel gestures, touch
gestures, and completion signals of scroll timelines.  These are exactly
the directional-intent sources plus the transition-completion callback. -/
inductive SnapEvent where
  | wheel (env : WheelEnv) (deltaY : Int)
  | touchstart (touchY : Int)
  | touchmove (env : WheelEnv) (touchY : Int)
  | complete (tl : Nat)
deriving Repr, DecidableEq

/-- One step of the variant A controller on an event, returning the new
state and the target offset of a started scroll animation, if any. -/
def snapStep (st : SnapState) (e : SnapEvent) : SnapState × Option Int :=
  match e with
  | .wheel env d => wheelStep st env d
  | .touchstart y => (touchStartStep st y, none)
  | .touchmove env y => touchMoveStep st env y
  | .complete tl => (completeStep st tl, none)

/-- Run of the controller on a list of events, collecting the target
offsets of every scroll animation issued along the way. -/
def runTrace (st : SnapState) (es : List SnapEvent) : SnapState × List Int :=
  match es with
  | [] => (st, [])
  | e :: rest =>
    let r := snapStep st e
    let r2 := runTrace r.1 rest
    (r2.1, r.2.toList ++ r2.2)

/-- Successive values of `currentIndex` along a run, the initial value
included. -/
def indexTrace (st : SnapState) (es : List SnapEvent) : List Int :=
  match es with
  | [] => [st.currentIndex]
  | e :: rest => st.currentIndex :: indexTrace (snapStep st e).1 rest

/-- Module-level mutable state of variant B (the Lenis scroll variant),
together with its closure variables.  `pending` is the scheduled
scroll-end timeout with its captured scroll position (`scrollEndTimeout`),
and `inFlight` is the target offset captured by the currently running
`lenis.scrollTo`, if any. -/
structure LenisState where
  positions : List Int
  snapping : Bool
  lastScrollY : Int
  scrollDirectionDown : Bool
  pending : Option Int
  inFlight : Option Int
deriving Repr, DecidableEq

/-- External-gate facts variant B's `onScroll` reads: whether the hero
trigger element exists and is in the viewport, and whether some
registered ScrollTrigger reports itself active. -/
structure LenisEnv where
  heroInViewport : Bool
  anyTriggerActive : Bool
deriving Repr, DecidableEq

/-- Variant B state right after `initSectionSnap` measured the section
positions: not snapping, `lastScrollY = 0`, initial direction down, no
pending timeout, no scroll in flight. -/
def lenisInit (measured : List Int) : LenisState where
  positions := measured
  snapping := false
  lastScrollY := 0
  scrollDirectionDown := true
  pending := none
  inFlight := none

/-- Variant B's `onScroll` handler (source lines 463-542 of the second
document, up to scheduling the scroll-end timeout): bail out while
snapping, bail out while the hero trigger is in viewport and some
ScrollTrigger is active, otherwise track the scroll direction when the
delta exceeds 1 px and (re)schedule the scroll-end timeout capturing the
current scroll position. -/
def onScrollStep (st : LenisState) (env : LenisEnv) (scroll : Int) : LenisState :=
  if st.snapping then st
  else if env.heroInViewport = true ∧ env.anyTriggerActive = true then st
  else
    let st1 :=
      if 1 < (scroll - st.lastScrollY).natAbs then
        { st with scrollDirectionDown := st.lastScrollY < scroll, lastScrollY := scroll }
      else { st with lastScrollY := scroll }
    { st1 with pending := some scroll }

/-- Body of variant B's scroll-end timeout (source lines 485-541), with
the default threshold 0.15.  The source compares the real number
`progress = (scroll - top) / viewport` against 0.15, 0.85, 0 and 0.01;
for a positive viewport height these comparisons are embedded exactly by
cross-multiplication.  An empty position table makes every progress
comparison false in the source (NaN arithmetic), hence no snap; the
`isEmpty` branch mirrors that (it is unreachable anyway, because `init`
installs no handlers when no sections are found).  Returns the new state
and the target offset passed to `lenis.scrollTo`, if any. -/
def scrollEndBody (st : LenisState) (viewport scroll : Int) : LenisState × Option Int :=
  let st0 := { st with pending := none }
  if st.positions.isEmpty then (st0, none)
  else
    let closest := nearestIndex st.positions scroll
    let top := st.positions.getD closest 0
    let num := scroll - top
    let chosen : Option Nat :=
      if st.scrollDirectionDown = true ∧ 3 * viewport < 20 * num then
        some (min (closest + 1) (st.positions.length - 1))
      else if st.scrollDirectionDown = false ∧ 20 * num < 17 * viewport ∧ 0 ≤ num then
        some (closest - 1)
      else if num < 0 ∧ 0 < closest then
        some (closest - 1)
      else if viewport < 100 * (num.natAbs : Int) then
        some closest
      else none
    match chosen with
    | none => (st0, none)
    | some targetIndex =>
      let targetPos := st.positions.getD targetIndex 0
      if 5 < (scroll - targetPos).natAbs then
        ({ st0 with snapping := true, inFlight := some targetPos }, some targetPos)
      else (st0, none)

/-- Firing of the scheduled scroll-end timeout: runs the body on the
captured scroll position when a timeout is pending, does nothing
otherwise. -/
def scrollEndFire (st : LenisState) (viewport : Int) : LenisState × Option Int :=
  match st.pending with
  | none => (st, none)
  | some scroll => scrollEndBody st viewport scroll

/-- Variant B's `resizeHandler` (source lines 454-458): recomputes the
position table from the freshly measured layout (`updatePositions`) and
refreshes ScrollTrigger; it consults no flag before doing so. -/
def resizeStep (st : LenisState) (measured : List Int) : LenisState :=
  { st with positions := measured }

/-- Completion callback of variant B's `lenis.scrollTo` (source line
538): clears `snapping`; the in-flight target is gone with it. -/
def lenisCompleteStep (st : LenisState) : LenisState :=
  { st with snapping := false, inFlight := none }

end SectionSnap

namespace SectionSnap

theorem clampAdjacent_near (ci index : Int) :
    (clampAdjacent ci index - ci).natAbs ≤ 1 := by
  unfold clampAdjacent
  split
  · omega
  · split <;> omega

theorem resolveIndex_near (n ci index : Int) :
    (resolveIndex n ci index - ci).natAbs ≤ 1 :=
  clampAdjacent_near ci (clampRange n index)

theorem gotoSection_adjacent (st : SnapState) (scrollY : Int)
    (offsets : List Int) (index : Int) :
    ((gotoSection st scrollY offsets index).1.currentIndex - st.currentIndex).natAbs ≤ 1 := by
  unfold gotoSection
  dsimp only
  repeat' split
  all_goals first
    | (simp; done)
    | simpa using resolveIndex_near (offsets.length : Int) st.currentIndex index

theorem wheelStep_adjacent (st : SnapState) (env : WheelEnv) (d : Int) :
    ((wheelStep st env d).1.currentIndex - st.currentIndex).natAbs ≤ 1 := by
  unfold wheelStep
  dsimp only
  repeat' split
  all_goals first
    | (simp; done)
    | exact gotoSection_adjacent _ _ _ _

theorem touchMoveStep_adjacent (st : SnapState) (env : WheelEnv) (y : Int) :
    ((touchMoveStep st env y).1.currentIndex - st.currentIndex).natAbs ≤ 1 := by
  unfold touchMoveStep
  dsimp only
  repeat' split
  all_goals first
    | (simp; done)
    | exact gotoSection_adjacent _ _ _ _

theorem completeStep_currentIndex (st : SnapState) (tl : Nat) :
    (completeStep st tl).currentIndex = st.currentIndex := by
  unfold completeStep onCompleteBody
  split <;> rfl

theorem snapStep_adjacent (st : SnapState) (e : SnapEvent) :
    ((snapStep st e).1.currentIndex - st.currentIndex).natAbs ≤ 1 := by
  cases e with
  | wheel env d => exact wheelStep_adjacent st env d
  | touchstart y =>
    simp only [snapStep, touchStartStep]
    split <;> simp
  | touchmove env y => exact touchMoveStep_adjacent st env y
  | complete tl =>
    simp only [snapStep, completeStep_currentIndex]
    simp

theorem indexTrace_head (st : SnapState) (es : List SnapEvent) :
    (indexTrace st es).head? = some st.currentIndex := by
  cases es <;> rfl

theorem indexTrace_chain (st : SnapState) (es : List SnapEvent) :
    List.Chain' (fun a b => (b - a).natAbs ≤ 1) (indexTrace st es) := by
  induction es generalizing st with
  | nil => simp [indexTrace]
  | cons e rest ih =>
    rw [indexTrace]
    refine List.chain'_cons'.mpr ⟨?_, ih _⟩
    intro b hb
    rw [indexTrace_head, Option.mem_def, Option.some.injEq] at hb
    subst hb
    exact snapStep_adjacent st e

/-- C1: every committed transition moves `currentIndex` by at most one.
Whatever index `gotoSection` is asked for and however far the live scroll
position has drifted, the committed index differs from the prior
`currentIndex` by at most 1; consequently each controller step (wheel
gesture, touch gesture, or completion callback) moves `currentIndex` by
at most one, and over any sequence of intents the successive
`currentIndex` values have consecutive differences in {-1, 0, +1}. -/
theorem snap_moves_at_most_one_step :
    (∀ (st : SnapState) (scrollY : Int) (offsets : List Int) (index : Int),
        ((gotoSection st scrollY offsets index).1.currentIndex - st.currentIndex).natAbs ≤ 1)
    ∧ (∀ (st : SnapState) (e : SnapEvent),
        ((snapStep st e).1.currentIndex - st.currentIndex).natAbs ≤ 1)
    ∧ ∀ (st : SnapState) (es : List SnapEvent),
        List.Chain' (fun a b => (b - a).natAbs ≤ 1) (indexTrace st es) :=
  ⟨gotoSection_adjacent, snapStep_adjacent, indexTrace_chain⟩

/-- C2: at most one transition is in flight.  While `animating` is true,
every wheel event, every touch event and every `gotoSection` call leaves
the state untouched and starts no scroll animation (nothing is queued
either), and conversely any step that does start a scroll animation was
taken from a state with `animating = false`, which only the completion
callback can restore. -/
theorem animating_blocks_everything (st : SnapState) (h : st.animating = true) :
    (∀ (env : WheelEnv) (d : Int), wheelStep st env d = (st, none))
    ∧ (∀ (env : WheelEnv) (y : Int), touchMoveStep st env y = (st, none))
    ∧ (∀ (y : Int), touchStartStep st y = st)
    ∧ (∀ (scrollY : Int) (offsets : List Int) (i : Int),
        gotoSection st scrollY offsets i = (st, none))
    ∧ ∀ (st2 : SnapState) (e : SnapEvent),
        ((snapStep st2 e).2).isSome = true → st2.animating = false := by
  refine ⟨?_, ?_, ?_, ?_, ?_⟩
  · intro env d
    unfold wheelStep
    simp [h]
  · intro env y
    unfold touchMoveStep
    simp [h]
  · intro y
    unfold touchStartStep
    simp [h]
  · intro scrollY offsets i
    unfold gotoSection
    simp [h]
  · intro st2 e hsome
    by_contra hanim
    rw [Bool.not_eq_false] at hanim
    rcases e with ⟨env, d⟩ | y | ⟨env, y⟩ | tl
    · rw [show snapStep st2 (.wheel env d) = wheelStep st2 env d from rfl] at hsome
      unfold wheelStep at hsome
      simp [hanim] at hsome
    · simp [snapStep] at hsome
    · rw [show snapStep st2 (.touchmove env y) = touchMoveStep st2 env y from rfl] at hsome
      unfold touchMoveStep at hsome
      simp [hanim] at hsome
    · simp [snapStep] at hsome

/-- Witness for C2 at a concrete animating state. -/
theorem animating_blocks_everything_witness :
    wheelStep { initState with animating := true } ⟨10000, 0, [0, 800], false⟩ 120
      = ({ initState with animating := true }, none)
    ∧ touchMoveStep { initState with animating := true } ⟨10000, 0, [0, 800], false⟩ 100
      = ({ initState with animating := true }, none)
    ∧ gotoSection { initState with animating := true } 0 [0, 800] 1
      = ({ initState with animating := true }, none) :=
  ⟨(animating_blocks_everything { initState with animating := true } rfl).1 _ _,
   (animating_blocks_everything { initState with animating := true } rfl).2.1 _ _,
   (animating_blocks_everything { initState with animating := true } rfl).2.2.2.1 _ _ _⟩

/-- C5: an intent that resolves to the current index while the live
scroll position is within 5 px of that section's offset is a complete
no-op: `gotoSection` issues no scroll command and leaves the state (in
particular `currentIndex`) unchanged, so repeating the request is
idempotent. -/
theorem aligned_intent_is_noop (st : SnapState) (scrollY : Int)
    (offsets : List Int) (req : Int) (p : Int)
    (hres : resolveIndex (offsets.length : Int) st.currentIndex req = st.currentIndex)
    (hp : getAt? offsets st.currentIndex = some p)
    (hal : (scrollY - p).natAbs ≤ 5) :
    gotoSection st scrollY offsets req = (st, none) := by
  unfold gotoSection
  split
  · rfl
  · dsimp only
    rw [hres, if_pos rfl, hp]
    simp [hal]

/-- Witness for C5: with sections at offsets 0 and 800, index 0 and the
scroll position at 3 px, a snap request to index 0 does nothing. -/
theorem aligned_intent_is_noop_witness :
    gotoSection initState 3 [0, 800] 0 = (initState, none) :=
  aligned_intent_is_noop initState 3 [0, 800] 0 0 (by decide) (by decide) (by decide)

/-- C6: boundary intents are no-ops, not errors.  A forward (down) wheel
or touch intent while the nearest section is the last one, and a backward
(up) intent while the nearest section is index 0, leave `currentIndex`
unchanged and issue no scroll command. -/
theorem boundary_intents_are_noops (st : SnapState) (env : WheelEnv) :
    (∀ d : Int, 0 < d →
        nearestIndex env.offsets env.scrollY + 1 = env.offsets.length →
        (wheelStep st env d).1.currentIndex = st.currentIndex
          ∧ (wheelStep st env d).2 = none)
    ∧ (∀ d : Int, d ≤ 0 →
        nearestIndex env.offsets env.scrollY = 0 →
        (wheelStep st env d).1.currentIndex = st.currentIndex
          ∧ (wheelStep st env d).2 = none)
    ∧ (∀ y : Int, st.touchStartY - y < 0 →
        nearestIndex env.offsets env.scrollY + 1 = env.offsets.length →
        (touchMoveStep st env y).1.currentIndex = st.currentIndex
          ∧ (touchMoveStep st env y).2 = none)
    ∧ ∀ y : Int, 0 ≤ st.touchStartY - y →
        nearestIndex env.offsets env.scrollY = 0 →
        (touchMoveStep st env y).1.currentIndex = st.currentIndex
          ∧ (touchMoveStep st env y).2 = none := by
  refine ⟨?_, ?_, ?_, ?_⟩
  · intro d hd hbound
    unfold wheelStep
    dsimp only
    repeat' split
    all_goals simp_all
    all_goals omega
  · intro d hd hbound
    unfold wheelStep
    dsimp only
    repeat' split
    all_goals simp_all
    all_goals omega
  · intro y hy hbound
    unfold touchMoveStep
    dsimp only
    repeat' split
    all_goals simp_all
    all_goals omega
  · intro y hy hbound
    unfold touchMoveStep
    dsimp only
    repeat' split
    all_goals simp_all
    all_goals omega

/-- Witness for C6 with a single section (index 0 is both the first and
the last), a forward and a backward wheel gesture and a forward and a
backward touch gesture. -/
theorem boundary_intents_are_noops_witness :
    ((wheelStep initState ⟨10000, 0, [0], false⟩ 120).1.currentIndex = initState.currentIndex
      ∧ (wheelStep initState ⟨10000, 0, [0], false⟩ 120).2 = none)
    ∧ ((wheelStep initState ⟨10000, 0, [0], false⟩ (-120)).1.currentIndex = initState.currentIndex
      ∧ (wheelStep initState ⟨10000, 0, [0], false⟩ (-120)).2 = none)
    ∧ ((touchMoveStep initState ⟨10000, 0, [0], false⟩ 100).1.currentIndex = initState.currentIndex
      ∧ (touchMoveStep initState ⟨10000, 0, [0], false⟩ 100).2 = none)
    ∧ ((touchMoveStep initState ⟨10000, 0, [0], false⟩ (-100)).1.currentIndex = initState.currentIndex
      ∧ (touchMoveStep initState ⟨10000, 0, [0], false⟩ (-100)).2 = none) :=
  ⟨(boundary_intents_are_noops initState ⟨10000, 0, [0], false⟩).1 120 (by decide) (by decide),
   (boundary_intents_are_noops initState ⟨10000, 0, [0], false⟩).2.1 (-120) (by decide) (by decide),
   (boundary_intents_are_noops initState ⟨10000, 0, [0], false⟩).2.2.1 100 (by decide) (by decide),
   (boundary_intents_are_noops initState ⟨10000, 0, [0], false⟩).2.2.2 (-100) (by decide) (by decide)⟩

/-- Offsets of the five-section scenario of the spec. -/
def fiveSections : List Int := [0, 800, 1600, 2400, 3200]

/-- Event trace of the C7 scenario: two wheel-down events with
`deltaY = 120` fired 200 ms apart (the second lands mid-animation, with
the scroll at 300 px), followed by the completion of the one scroll
animation that was started. -/
def c7Trace : List SnapEvent :=
  [ .wheel ⟨10000, 0, fiveSections, false⟩ 120,
    .wheel ⟨10200, 300, fiveSections, false⟩ 120,
    .complete 0 ]

/-- C7: with five sections at offsets [0, 800, 1600, 2400, 3200] and the
controller at index 0 / offset 0, two wheel-down events with deltaY = 120
fired 200 ms apart produce exactly one scroll animation, targeting offset
800; the controller ends at index 1, settled, because the second event
falls inside the throttle window (and inside the running animation) and
is discarded. -/
theorem two_fast_wheels_one_transition :
    (runTrace initState c7Trace).2 = [800]
    ∧ (runTrace initState c7Trace).1.currentIndex = 1
    ∧ (runTrace initState c7Trace).1.animating = false
    ∧ (runTrace initState c7Trace).1.processingWheel = false := by decide

/-- C10: the double-processing guard of the wheel listener.  Once a wheel
event has been accepted with nearest section `i` (recorded in
`lastProcessedIndex` with the acceptance time in `lastWheelTime`), any
later wheel event whose nearest section is still `i` is discarded while
less than `2 * wheelThrottle = 2400` ms have elapsed — even though the
ordinary 1200 ms throttle has already expired, and whatever the sign of
`deltaY` (so a direction reversal from the same section inside 2.4 s is
silently dropped). -/
theorem same_section_double_throttle (st : SnapState) (env : WheelEnv) (d : Int)
    (ha : st.animating = false) (hw : st.processingWheel = false)
    (hidx : (nearestIndex env.offsets env.scrollY : Int) = st.lastProcessedIndex)
    (h1 : wheelThrottle ≤ env.now - st.lastWheelTime)
    (h2 : env.now - st.lastWheelTime < wheelThrottle * 2) :
    wheelStep st env d = (st, none) := by
  unfold wheelStep
  dsimp only
  rw [if_neg (by simp [ha, hw])]
  rw [if_neg (by omega)]
  rw [if_pos ⟨hidx, h2⟩]

/-- Witness for C10: a wheel-up reversal 1500 ms after an accepted event
whose nearest section (index 0) is unchanged is dropped. -/
theorem same_section_double_throttle_witness :
    wheelStep { initState with lastProcessedIndex := 0, lastWheelTime := 10000 }
        ⟨11500, 0, [0, 800], false⟩ (-120)
      = ({ initState with lastProcessedIndex := 0, lastWheelTime := 10000 }, none) :=
  same_section_double_throttle _ _ _ (by decide) (by decide) (by decide) (by decide) (by decide)

/-- Environment of the C3 counterexample: wheel-down at index 0 with the
five-section layout while the blocking external animation reports itself
active. -/
def gateActiveEnv : WheelEnv := ⟨10000, 0, fiveSections, true⟩

/-- C3 counterexample: the wheel listener of the wheel/touch variant
consults no external gate.  At index 0 with the blocking animation
reporting active (`externalAnimActive = true`), a wheel-down intent is
not suppressed: the controller commits index 1 and issues a scroll
command to offset 800 anyway. -/
theorem wheel_ignores_external_gate :
    gateActiveEnv.externalAnimActive = true
    ∧ initState.currentIndex = 0
    ∧ (wheelStep initState gateActiveEnv 120).2 = some 800
    ∧ (wheelStep initState gateActiveEnv 120).1.currentIndex = 1 := by decide

/-- C3 amended: only the Lenis scroll variant implements the gate.  While
the hero trigger is in viewport and some viewport trigger reports itself
active, `onScroll` is fully suppressed: the state is unchanged and no
scroll-end snap is scheduled, hence no call to the scroll collaborator
can follow from that event.  Once the gate is inactive, the next
downward scroll past the threshold snaps normally to the adjacent
section: from the five-section layout at scroll 200 with viewport 800,
the scroll-end callback commands a snap to offset 800. -/
theorem lenis_gate_suppresses_snaps (st : LenisState) (env : LenisEnv) (scroll : Int)
    (hHero : env.heroInViewport = true) (hAct : env.anyTriggerActive = true) :
    onScrollStep st env scroll = st
    ∧ (scrollEndFire (onScrollStep (lenisInit fiveSections) ⟨false, false⟩ 200) 800).2
        = some 800
    ∧ (scrollEndFire (onScrollStep (lenisInit fiveSections) ⟨false, false⟩ 200) 800).1.snapping
        = true := by
  refine ⟨?_, by decide, by decide⟩
  unfold onScrollStep
  split
  · rfl
  · rw [if_pos ⟨hHero, hAct⟩]

/-- Witness for C3 amended at a concrete gated scroll event. -/
theorem lenis_gate_suppresses_snaps_witness :
    onScrollStep (lenisInit fiveSections) ⟨true, true⟩ 50 = lenisInit fiveSections :=
  (lenis_gate_suppresses_snaps (lenisInit fiveSections) ⟨true, true⟩ 50 rfl rfl).1

/-- State of the C4 failing input: two sections measured only 8 px apart
(offsets 0 and 8), the cached `currentIndex` at 1 while the live scroll
position, 4 px, is nearest to section 0 (tie broken to the lower index)
and within 5 px of section 1's offset. -/
def leakState : SnapState := { initState with currentIndex := 1 }

/-- Environment of the C4 failing input. -/
def leakEnv : WheelEnv := ⟨10000, 4, [0, 8], false⟩

/-- C4: a wheel-down intent from `leakState` is accepted (the lock
`processingWheel` is taken), resolves inside `gotoSection` to the cached
current index while already aligned within 5 px, and returns through the
aligned-no-op path — which, unlike the boundary and invalid-target
no-op paths, does not release the lock.  The handler ends with
`processingWheel = true`, no scroll command issued, no animation running
and no timeline pending, so no completion callback exists to ever release
the lock. -/
theorem wheel_lock_leak_on_aligned_noop :
    (wheelStep leakState leakEnv 120).2 = none
    ∧ (wheelStep leakState leakEnv 120).1.processingWheel = true
    ∧ (wheelStep leakState leakEnv 120).1.animating = false
    ∧ (wheelStep leakState leakEnv 120).1.timeline = none
    ∧ (wheelStep leakState leakEnv 120).1.currentIndex = leakState.currentIndex := by decide

/-- State used in the C9 counterexample: a newer transition is in flight
(`animating = true`, live timeline 7, committed index 2, wheel lock
held); a completion callback captured by an older, killed timeline would
fire against this state. -/
def newerInFlight : SnapState :=
  { currentIndex := 2, animating := true, processingWheel := true,
    processingTouch := false, lastWheelTime := 5000, lastProcessedIndex := 1,
    lastTouchTime := 0, touchStartY := 0, timeline := some 7, nextTl := 8 }

/-- C9 counterexample: the completion callback body (source lines
121-128) performs no comparison of its captured target against the
controller's live state — it unconditionally clears `animating`, the
timeline and both input locks.  Run against a state set by a newer
transition (a mismatch), it does not leave `animating` and the locks as
the newer transition set them. -/
theorem stale_callback_body_clobbers :
    newerInFlight.animating = true
    ∧ (onCompleteBody newerInFlight).animating = false
    ∧ newerInFlight.processingWheel = true
    ∧ (onCompleteBody newerInFlight).processingWheel = false
    ∧ newerInFlight.timeline = some 7
    ∧ (onCompleteBody newerInFlight).timeline = none := by decide

/-- C9 amended: stale completion callbacks are neutralized not by a
comparison inside the callback but by `gotoSection` killing the previous
timeline before starting a new one — a killed timeline's `onComplete`
never fires.  In the model: a completion signal whose timeline identifier
is not the live one changes nothing; and when a new transition starts
from a state whose live timeline identifier is below the fresh-identifier
counter, the old identifier is stale on the new state, so its completion
signal changes nothing there. -/
theorem gotoSection_commit_timeline (st : SnapState) (scrollY : Int)
    (offsets : List Int) (i : Int) :
    ((gotoSection st scrollY offsets i).2).isSome = true →
    (gotoSection st scrollY offsets i).1.timeline = some st.nextTl := by
  unfold gotoSection
  dsimp only
  repeat' split
  all_goals simp

theorem stale_completion_discarded (st : SnapState) (tl : Nat)
    (h : st.timeline ≠ some tl) :
    completeStep st tl = st
    ∧ ∀ (st2 : SnapState) (scrollY : Int) (offsets : List Int) (i : Int) (t : Nat),
        st2.timeline = some t → t < st2.nextTl →
        ((gotoSection st2 scrollY offsets i).2).isSome = true →
        completeStep (gotoSection st2 scrollY offsets i).1 t
          = (gotoSection st2 scrollY offsets i).1 := by
  constructor
  · unfold completeStep
    exact if_neg h
  · intro st2 scrollY offsets i t hlive hlt hsome
    have htl := gotoSection_commit_timeline st2 scrollY offsets i hsome
    unfold completeStep
    rw [htl]
    rw [if_neg (by simp only [ne_eq, Option.some.injEq]; omega)]

/-- Witness for C9 amended: a completion signal for the killed timeline 3
leaves the in-flight state of timeline 7 untouched, and after a fresh
transition from `initState`-like data the prior timeline's signal is a
no-op on the new state. -/
theorem stale_completion_discarded_witness :
    completeStep newerInFlight 3 = newerInFlight
    ∧ completeStep (gotoSection { initState with timeline := some 0, nextTl := 1 }
          0 [0, 800] 1).1 0
        = (gotoSection { initState with timeline := some 0, nextTl := 1 } 0 [0, 800] 1).1 :=
  ⟨(stale_completion_discarded newerInFlight 3 (by decide)).1,
   (stale_completion_discarded newerInFlight 3 (by decide)).2
      { initState with timeline := some 0, nextTl := 1 } 0 [0, 800] 1 0
      rfl (by decide) (by decide)⟩

/-- State of the C8 counterexample: a snap to offset 800 is in flight
(`snapping = true`). -/
def midFlight : LenisState :=
  { positions := [0, 800], snapping := true, lastScrollY := 100,
    scrollDirectionDown := true, pending := none, inFlight := some 800 }

/-- C8 counterexample: the resize handler recomputes the offset table
immediately and unconditionally — it checks no flag.  A resize arriving
while a transition is in flight (`snapping = true`) rebuilds `positions`
on the spot; the recomputation is not deferred until the transition
settles. -/
theorem resize_rebuilds_during_transition :
    midFlight.snapping = true
    ∧ resizeStep midFlight [0, 900] ≠ midFlight
    ∧ (resizeStep midFlight [0, 900]).positions = [0, 900]
    ∧ (resizeStep midFlight [0, 900]).snapping = true := by decide

/-- C8 amended: a resize during an active transition does not alter the
in-flight target offset (the target was captured by the scroll call when
the snap started) and does not touch the snapping flag, but it installs
the freshly measured offset table immediately, whether or not a
transition is active.  The in-flight target is written only when a
scroll-end snap actually issues a scroll command, and then to exactly the
commanded offset. -/
theorem scrollEndBody_inFlight (st : LenisState) (viewport scroll : Int) :
    (scrollEndBody st viewport scroll).1.inFlight
      = ((scrollEndBody st viewport scroll).2).elim st.inFlight some := by
  unfold scrollEndBody
  dsimp only
  repeat' split
  all_goals simp

theorem scrollEndFire_inFlight (st : LenisState) (viewport : Int) :
    (scrollEndFire st viewport).1.inFlight
      = ((scrollEndFire st viewport).2).elim st.inFlight some := by
  unfold scrollEndFire
  split
  · simp
  · exact scrollEndBody_inFlight st viewport _

theorem resize_keeps_inflight_target (st : LenisState) (measured : List Int) :
    (resizeStep st measured).inFlight = st.inFlight
    ∧ (resizeStep st measured).snapping = st.snapping
    ∧ (resizeStep st measured).positions = measured
    ∧ (∀ (env : LenisEnv) (scroll : Int),
        (onScrollStep st env scroll).inFlight = st.inFlight)
    ∧ (∀ viewport : Int, (scrollEndFire st viewport).2 = none →
        (scrollEndFire st viewport).1.inFlight = st.inFlight)
    ∧ ∀ (viewport t : Int), (scrollEndFire st viewport).2 = some t →
        (scrollEndFire st viewport).1.inFlight = some t := by
  refine ⟨rfl, rfl, rfl, ?_, ?_, ?_⟩
  · intro env scroll
    unfold onScrollStep
    repeat' split
    all_goals rfl
  · intro viewport hnone
    have hfl := scrollEndFire_inFlight st viewport
    rw [hnone] at hfl
    simpa using hfl
  · intro viewport t hsome
    have hfl := scrollEndFire_inFlight st viewport
    rw [hsome] at hfl
    simpa using hfl

/-- Witness for C8 amended: instantiated on the mid-flight state with a
fresh measurement, a scroll event, an idle scroll-end firing, and a
scroll-end firing that commands a snap. -/
theorem resize_keeps_inflight_target_witness :
    (resizeStep midFlight [0, 900]).inFlight = midFlight.inFlight
    ∧ (∀ viewport : Int, (scrollEndFire midFlight viewport).2 = none →
        (scrollEndFire midFlight viewport).1.inFlight = midFlight.inFlight)
    ∧ ((scrollEndFire { lenisInit fiveSections with pending := some 200 } 800).2 = some 800 →
        (scrollEndFire { lenisInit fiveSections with pending := some 200 } 800).1.inFlight
          = some 800) :=
  ⟨(resize_keeps_inflight_target midFlight [0, 900]).1,
   (resize_keeps_inflight_target midFlight [0, 900]).2.2.2.2.1,
   fun h => (resize_keeps_inflight_target
      { lenisInit fiveSections with pending := some 200 } [0, 900]).2.2.2.2.2 800 800 h⟩

end SectionSnap
